import Mathlib

/-!
Shallow embedding of `src/app/server.py` (FastAPI service wrapping an
MLflow-registered iris classifier), together with proofs settling the
frozen claims about its specification.

Modelling conventions:
* A loaded predictor (`mlflow.pyfunc` model object) is an opaque callable;
  we embed it as a function from a feature vector to `Except String Int`
  (the `Int` is the predicted class id, `Except.error` models a raised
  exception inside `model.predict`).
* The model registry (`mlflow.pyfunc.load_model`) is a parameter
  `lm : String → Except String Predictor` mapping a model URI to a
  predictor or a raised exception.
* Python dict lookups that can raise `KeyError` are embedded with
  `Option`; handlers that can raise are embedded with `Except`.
* Module-level globals `MODEL_NAME`, `MODEL_VERSION`, `MODEL_URI`, `model`
  form the mutable `ServingState`; endpoint handlers become functions
  `ServingState → request → ServingState × response`.
-/

namespace IrisServer

/-- A predictor object loaded from the registry: called on one feature
vector (the code calls `model.predict([[...]])` and reads element 0),
returning a class id or raising. -/
def Predictor : Type := List ℚ → Except String Int

/-- `IrisSample` from the pydantic schema: four measurements.  We use `ℚ`
for the float fields; the server never computes on them, it only passes
them through to the predictor.  The `ge=0` constraints are validation
facts about the HTTP layer, not used by the handler bodies. -/
structure IrisSample where
  sepal_length : ℚ
  sepal_width : ℚ
  petal_length : ℚ
  petal_width : ℚ
deriving DecidableEq

/-- `PredictRequest`: an ordered list of samples. -/
structure PredictRequest where
  samples : List IrisSample
deriving DecidableEq

/-- The fixed feature order the handler uses when invoking the predictor:
`[sepal_length, sepal_width, petal_length, petal_width]`. -/
def features (s : IrisSample) : List ℚ :=
  [s.sepal_length, s.sepal_width, s.petal_length, s.petal_width]

/-- `IRIS_LABELS = {0: "setosa", 1: "versicolor", 2: "virginica"}`;
a key outside the domain gives `none` (Python raises `KeyError`). -/
def IRIS_LABELS (i : Int) : Option String :=
  if i = 0 then some "setosa"
  else if i = 1 then some "versicolor"
  else if i = 2 then some "virginica"
  else none

/-- `PredictResponse`: parallel lists of class ids and labels. -/
structure PredictResponse where
  class_id : List Int
  class_label : List String
deriving DecidableEq

/-- `VersionRequest` body of `POST /setModelVersion`. -/
structure VersionRequest where
  model_version : String
deriving DecidableEq

/-- `ModelResponse`: the `/version` (and successful `/setModelVersion`)
response shape. -/
structure ModelResponse where
  model_name : String
  model_version : String
  model_uri : String
deriving DecidableEq

/-- The per-sample loop inside `predict`: walks `samples` in order,
invokes the predictor on each feature vector, collects the id and the
label obtained from `IRIS_LABELS`.  A predictor exception or a failed
label lookup (`KeyError`) aborts the loop, exactly as in Python. -/
def predictLoop (model : Predictor) : List IrisSample → Except String (List Int × List String)
  | [] => Except.ok ([], [])
  | s :: rest =>
    match model (features s) with
    | Except.error e => Except.error e
    | Except.ok i =>
      match IRIS_LABELS i with
      | none => Except.error ("KeyError: " ++ toString i)
      | some lab =>
        match predictLoop model rest with
        | Except.error e => Except.error e
        | Except.ok (ids, labs) => Except.ok (i :: ids, lab :: labs)

/-- The `predict` handler body: runs the loop (so any exception it raises
propagates), then — as the source literally does — discards the computed
`ids`/`labels` and returns `PredictResponse(class_id=[], class_label=[])`. -/
def predict (model : Predictor) (req : PredictRequest) : Except String PredictResponse :=
  match predictLoop model req.samples with
  | Except.error e => Except.error e
  | Except.ok _ => Except.ok { class_id := [], class_label := [] }

/-- What the `predict` loop computes before the handler discards it:
the intended, positionally aligned response.  Used to compare the code's
observable behaviour against the spec's prediction contract. -/
def intendedPredict (model : Predictor) (req : PredictRequest) : Except String PredictResponse :=
  match predictLoop model req.samples with
  | Except.error e => Except.error e
  | Except.ok (ids, labs) => Except.ok { class_id := ids, class_label := labs }

/-- Hard-coded config: `MODEL_NAME = "iris-classifier"`. -/
def MODEL_NAME : String := "iris-classifier"

/-- Hard-coded config: the initial `MODEL_VERSION = "1"`. -/
def INITIAL_MODEL_VERSION : String := "1"

/-- The fixed URI template `models:/{name}/{version}` as the f-strings in
the source instantiate it. -/
def mkUri (name version : String) : String :=
  "models:/" ++ name ++ "/" ++ version

/-- The module-level globals `MODEL_NAME`, `MODEL_VERSION`, `MODEL_URI`,
`model`, read by every handler and rebound by `setModelVersion`. -/
structure ServingState where
  model_name : String
  model_version : String
  model_uri : String
  model : Predictor

/-- Response bodies the handlers can produce, as JSON-shaped data:
a `PredictResponse`, a `ModelResponse`, or a plain dict of string
key/value pairs (used by `/health`, by `setModelVersion`'s except
branch, and by FastAPI's generic internal-server-error payload). -/
inductive Body where
  | predictBody (r : PredictResponse)
  | modelBody (r : ModelResponse)
  | dictBody (entries : List (String × String))
deriving DecidableEq

/-- An HTTP response: status code plus body. -/
structure HttpResponse where
  status : Nat
  body : Body

/-- Module-level startup: `model = mlflow.pyfunc.load_model(MODEL_URI)`
with `MODEL_URI = models:/iris-classifier/1`.  If the load raises, the
process never starts (`none`). -/
def initState (lm : String → Except String Predictor) : Option ServingState :=
  match lm (mkUri MODEL_NAME INITIAL_MODEL_VERSION) with
  | Except.error _ => none
  | Except.ok m =>
    some { model_name := MODEL_NAME
         , model_version := INITIAL_MODEL_VERSION
         , model_uri := mkUri MODEL_NAME INITIAL_MODEL_VERSION
         , model := m }

/-- The `GET /health` handler: returns the dict
`(status: ok, model_uri: MODEL_URI)` with FastAPI's default 200. -/
def health (st : ServingState) : HttpResponse :=
  { status := 200
  , body := Body.dictBody [("status", "ok"), ("model_uri", st.model_uri)] }

/-- The `GET /version` handler: the current `ModelResponse` read from the
globals. -/
def version (st : ServingState) : ModelResponse :=
  { model_name := st.model_name
  , model_version := st.model_version
  , model_uri := st.model_uri }

/-- The `POST /predict` endpoint as observed on the wire: FastAPI invokes
the handler; a normal return becomes a 200 with the `PredictResponse`,
and an exception escaping the handler (the handler body has no
try/except) is converted by the framework into a 500 with the generic
`detail: Internal Server Error` payload — the process itself survives. -/
def handlePredict (model : Predictor) (req : PredictRequest) : HttpResponse :=
  match predict model req with
  | Except.ok r => { status := 200, body := Body.predictBody r }
  | Except.error _ =>
    { status := 500, body := Body.dictBody [("detail", "Internal Server Error")] }

/-- The `POST /setModelVersion` handler: builds the candidate URI, loads
it from the registry, and only on success rebinds the three globals
(`model`, then `MODEL_VERSION`, then `MODEL_URI`) and returns the new
`ModelResponse` (FastAPI default 200).  On a registry exception the
except branch returns — unchanged state — the literal dict
`(status: error, status message: "Unable to load model version - ...")`
(note the space in the second key, and again a 200 since a plain dict
return carries FastAPI's default status). -/
def setModelVersion (lm : String → Except String Predictor)
    (st : ServingState) (req : VersionRequest) : ServingState × HttpResponse :=
  let try_uri := mkUri st.model_name req.model_version
  match lm try_uri with
  | Except.ok m =>
    let st' : ServingState :=
      { model_name := st.model_name
      , model_version := req.model_version
      , model_uri := mkUri st.model_name req.model_version
      , model := m }
    (st', { status := 200, body := Body.modelBody (version st') })
  | Except.error e =>
    (st, { status := 200
         , body := Body.dictBody
             [("status", "error"),
              ("status message", "Unable to load model version - " ++ e)] })

/-- One inbound request to any of the four routes. -/
inductive Request where
  | health
  | version
  | predict (req : PredictRequest)
  | setModelVersion (req : VersionRequest)

/-- One request/response step of the server: read-only routes leave the
state unchanged; `setModelVersion` may replace it. -/
def step (lm : String → Except String Predictor)
    (st : ServingState) : Request → ServingState × HttpResponse
  | Request.health => (st, health st)
  | Request.version => (st, { status := 200, body := Body.modelBody (version st) })
  | Request.predict req => (st, handlePredict st.model req)
  | Request.setModelVersion req => setModelVersion lm st req

/-- Run a sequence of requests from a starting state, keeping the final
state. -/
def run (lm : String → Except String Predictor)
    (st : ServingState) : List Request → ServingState
  | [] => st
  | r :: rest => run lm (step lm st r).1 rest

/-- The state-consistency invariant of the spec: the URI is the fixed
template applied to the current name and version, and the loaded
predictor is exactly what the registry yields for that URI (so it
corresponds to the recorded version). -/
def Consistent (lm : String → Except String Predictor) (st : ServingState) : Prop :=
  st.model_uri = mkUri st.model_name st.model_version ∧
  lm st.model_uri = Except.ok st.model

/-! ### Micro-step model of the `setModelVersion` commit

Python executes the success path of `setModelVersion` as three separate
global assignments (`model`, then `MODEL_VERSION`, then `MODEL_URI`).
Under CPython each single assignment is atomic, but FastAPI runs these
sync handlers in a threadpool, so a concurrent reader can be scheduled
between two assignments and observe a prefix of the writes. -/

/-- One atomic global assignment on the serving state. -/
inductive MicroWrite where
  | writeModel (m : Predictor)
  | writeVersion (v : String)
  | writeUri (u : String)

/-- Apply one assignment. -/
def applyWrite (st : ServingState) : MicroWrite → ServingState
  | MicroWrite.writeModel m => { st with model := m }
  | MicroWrite.writeVersion v => { st with model_version := v }
  | MicroWrite.writeUri u => { st with model_uri := u }

/-- Apply a sequence of assignments in order. -/
def commitWrites (st : ServingState) (ws : List MicroWrite) : ServingState :=
  ws.foldl applyWrite st

/-- The write sequence the success path performs, in source order:
`model = ...` then `MODEL_VERSION = ...` then `MODEL_URI = ...`. -/
def swapWrites (st : ServingState) (v : String) (m : Predictor) : List MicroWrite :=
  [MicroWrite.writeModel m, MicroWrite.writeVersion v,
   MicroWrite.writeUri (mkUri st.model_name v)]

/-- The write sequence `setModelVersion` performs on the globals: the
registry load happens first, and only a successful load is followed by
any assignment; a raising load commits nothing. -/
def setModelVersionWrites (lm : String → Except String Predictor)
    (st : ServingState) (req : VersionRequest) : List MicroWrite :=
  match lm (mkUri st.model_name req.model_version) with
  | Except.ok m => swapWrites st req.model_version m
  | Except.error _ => []

/-! ### Concrete fixtures used to instantiate the theorems -/

/-- A predictor that classifies every sample as class `i`. -/
def constPredictor (i : Int) : Predictor := fun _ => Except.ok i

/-- A predictor whose invocation always raises. -/
def failPredictor : Predictor := fun _ => Except.error "boom"

/-- The canonical setosa measurement from the spec and the schema
example: (5.1, 3.5, 1.4, 0.2). -/
def sample0 : IrisSample :=
  { sepal_length := 51/10, sepal_width := 35/10
  , petal_length := 14/10, petal_width := 2/10 }

/-- A registry for which every load succeeds with the class-0 predictor. -/
def okRegistry : String → Except String Predictor :=
  fun _ => Except.ok (constPredictor 0)

/-- A registry for which every load succeeds with the class-2 predictor
(modelling a freshly loaded, behaviourally distinct artifact). -/
def registry2 : String → Except String Predictor :=
  fun _ => Except.ok (constPredictor 2)

/-- A registry for which every load raises (nonexistent version /
unreachable tracking server). -/
def failRegistry : String → Except String Predictor :=
  fun _ => Except.error "RESOURCE_DOES_NOT_EXIST"

/-- A concrete consistent serving state: version "1" with the class-0
predictor installed. -/
def st1 : ServingState :=
  { model_name := MODEL_NAME
  , model_version := "1"
  , model_uri := mkUri MODEL_NAME "1"
  , model := constPredictor 0 }

/-! ## Theorems settling the claims -/

/-- C1: the claim says a non-empty PredictRequest of length N yields
response sequences of length N, positionally aligned, with labels given
by the fixed mapping.  The code violates this: on the one-sample canonical
setosa request with a predictor answering class 0, the per-sample loop
computes the aligned ids/labels (`intendedPredict` = ([0], ["setosa"]))
but the handler returns `class_id = []`, `class_label = []` (length 0,
not 1).  This evaluates the code at the failing input. -/
theorem c1_predict_discards_results :
    predict (constPredictor 0) { samples := [sample0] }
      = Except.ok { class_id := [], class_label := [] } ∧
    intendedPredict (constPredictor 0) { samples := [sample0] }
      = Except.ok { class_id := [0], class_label := ["setosa"] } := by
  constructor <;> rfl

/-- C2: the claim says a failed load makes `/setModelVersion` answer with
body shape (status: "error", status_message: string) and a non-2xx HTTP
status.  The code violates this at the concrete failing input
model_version = "does-not-exist" against a raising registry: the handler
returns a plain dict, so FastAPI's default status 200 (a 2xx) applies,
and the dict's second key is "status message" (with a space), not
"status_message".  This evaluates the code at the failing input. -/
theorem c2_error_response_is_200_with_misnamed_key :
    (setModelVersion failRegistry st1 { model_version := "does-not-exist" }).2.status
      = 200 ∧
    (setModelVersion failRegistry st1 { model_version := "does-not-exist" }).2.body
      = Body.dictBody
          [("status", "error"),
           ("status message",
            "Unable to load model version - RESOURCE_DOES_NOT_EXIST")] := by
  constructor <;> rfl

/-- C3: a failed version-change attempt (the registry load of the
requested version raises) leaves the serving state entirely unchanged,
so a subsequent `GET /version` returns the prior version exactly. -/
theorem c3_failed_setModelVersion_leaves_state_unchanged
    (lm : String → Except String Predictor) (st : ServingState)
    (req : VersionRequest) (e : String)
    (h : lm (mkUri st.model_name req.model_version) = Except.error e) :
    (setModelVersion lm st req).1 = st ∧
    version (setModelVersion lm st req).1 = version st := by
  simp only [setModelVersion, h]
  constructor <;> trivial

/-- C3 witness: the unchanged-state theorem applied to the concrete
"does-not-exist" request against the raising registry. -/
theorem c3_witness :
    (setModelVersion failRegistry st1 { model_version := "does-not-exist" }).1 = st1 ∧
    version (setModelVersion failRegistry st1 { model_version := "does-not-exist" }).1
      = version st1 :=
  c3_failed_setModelVersion_leaves_state_unchanged failRegistry st1
    { model_version := "does-not-exist" } "RESOURCE_DOES_NOT_EXIST" rfl

/-- C4: after a successful version-change to V, `/version` reports
model_version = V and model_uri = "models:/iris-classifier/" ++ V, and
immediately before the change `/version` reports the prior state's
version fields. -/
theorem c4_successful_setModelVersion_updates_version
    (lm : String → Except String Predictor) (st : ServingState)
    (req : VersionRequest) (m : Predictor)
    (hname : st.model_name = MODEL_NAME)
    (h : lm (mkUri st.model_name req.model_version) = Except.ok m) :
    version (setModelVersion lm st req).1
      = { model_name := MODEL_NAME
        , model_version := req.model_version
        , model_uri := "models:/iris-classifier/" ++ req.model_version } ∧
    version st
      = { model_name := st.model_name
        , model_version := st.model_version
        , model_uri := st.model_uri } := by
  simp only [setModelVersion, h]
  refine ⟨?_, rfl⟩
  simp [version, mkUri, hname, MODEL_NAME]

/-- C4 witness: the success theorem applied to a change to version "7"
against a registry whose load succeeds. -/
theorem c4_witness :
    version (setModelVersion okRegistry st1 { model_version := "7" }).1
      = { model_name := MODEL_NAME
        , model_version := "7"
        , model_uri := "models:/iris-classifier/7" } ∧
    version st1
      = { model_name := st1.model_name
        , model_version := st1.model_version
        , model_uri := st1.model_uri } :=
  c4_successful_setModelVersion_updates_version okRegistry st1
    { model_version := "7" } (constPredictor 0) rfl rfl

/-- C6: an empty PredictRequest yields the response with empty class_id
and class_label sequences, both of length 0. -/
theorem c6_empty_request_empty_response (model : Predictor) :
    predict model { samples := [] }
      = Except.ok { class_id := [], class_label := [] } := rfl

/-- C5: the consistency invariant — model_uri is the fixed template
applied to (model_name, model_version), and the loaded predictor is what
the registry yields for that URI — holds in the initial serving state and
is preserved by every operation (health, predict, version, and
setModelVersion whether it succeeds or fails). -/
theorem c5_consistency_invariant (lm : String → Except String Predictor) :
    (∀ st0, initState lm = some st0 → Consistent lm st0) ∧
    (∀ st r, Consistent lm st → Consistent lm (step lm st r).1) := by
  constructor
  · intro st0 h0
    unfold initState at h0
    cases h : lm (mkUri MODEL_NAME INITIAL_MODEL_VERSION) with
    | error e => rw [h] at h0; cases h0
    | ok m =>
      rw [h] at h0
      cases h0
      exact ⟨rfl, h⟩
  · intro st r hc
    cases r with
    | health => exact hc
    | version => exact hc
    | predict req => exact hc
    | setModelVersion req =>
      simp only [step, setModelVersion]
      cases h : lm (mkUri st.model_name req.model_version) with
      | error e => exact hc
      | ok m => exact ⟨rfl, h⟩

/-- C5 witness: the invariant theorem applied at the all-succeeding
registry — the initial state is consistent, and one setModelVersion step
from the concrete consistent state keeps consistency. -/
theorem c5_witness :
    Consistent okRegistry st1 ∧
    Consistent okRegistry
      (step okRegistry st1 (Request.setModelVersion { model_version := "2" })).1 :=
  ⟨(c5_consistency_invariant okRegistry).1 st1 rfl,
   (c5_consistency_invariant okRegistry).2 st1
     (Request.setModelVersion { model_version := "2" }) ⟨rfl, rfl⟩⟩

/-- Helper for C7: if the predictor raises on some sample of the batch,
the per-sample loop aborts with an exception (either that one or an
earlier failure), never with a normal result. -/
theorem predictLoop_error_of_raise (model : Predictor) (e : String) :
    ∀ samples : List IrisSample,
      (∃ s ∈ samples, model (features s) = Except.error e) →
      ∃ e', predictLoop model samples = Except.error e' := by
  intro samples
  induction samples with
  | nil => rintro ⟨s, hs, -⟩; cases hs
  | cons a rest ih =>
    rintro ⟨s, hs, hraise⟩
    rcases List.mem_cons.mp hs with rfl | hmem
    · exact ⟨e, by simp [predictLoop, hraise]⟩
    · cases h1 : model (features a) with
      | error e1 => exact ⟨e1, by simp [predictLoop, h1]⟩
      | ok i =>
        cases h2 : IRIS_LABELS i with
        | none => exact ⟨"KeyError: " ++ toString i, by simp [predictLoop, h1, h2]⟩
        | some lab =>
          obtain ⟨e', he'⟩ := ih ⟨s, hmem, hraise⟩
          exact ⟨e', by simp [predictLoop, h1, h2, he']⟩

/-- C7: on a structurally valid request for which the loaded predictor
raises on some sample, the predict handler raises (it never reaches its
return, so it does not silently answer with the empty sequences), and at
the endpoint boundary the framework converts the escaping exception into
a structured 500 server-error response; the process survives (the state
is untouched — `step` leaves it unchanged on predict). -/
theorem c7_predictor_failure_surfaces (model : Predictor) (req : PredictRequest)
    (s : IrisSample) (e : String) (hs : s ∈ req.samples)
    (hraise : model (features s) = Except.error e) :
    (∃ e', predict model req = Except.error e') ∧
    handlePredict model req
      = { status := 500
        , body := Body.dictBody [("detail", "Internal Server Error")] } := by
  obtain ⟨e', he'⟩ := predictLoop_error_of_raise model e req.samples ⟨s, hs, hraise⟩
  exact ⟨⟨e', by simp [predict, he']⟩, by simp [handlePredict, predict, he']⟩

/-- C7 witness: the failure-surfacing theorem applied to the raising
predictor on the one-sample canonical request. -/
theorem c7_witness :
    (∃ e', predict failPredictor { samples := [sample0] } = Except.error e') ∧
    handlePredict failPredictor { samples := [sample0] }
      = { status := 500
        , body := Body.dictBody [("detail", "Internal Server Error")] } :=
  c7_predictor_failure_surfaces failPredictor { samples := [sample0] } sample0 "boom"
    (List.mem_singleton.mpr rfl) rfl

/-- C8 counterexample: the claim says no concurrent request ever observes
model_version changed but loaded_predictor not, or vice versa.  The
success path commits three separate global assignments (model first), so
the state observable after the first assignment — a prefix of the write
sequence the handler performs against a registry serving version "2" —
has the new predictor installed while model_version is still the prior
"1": predictor changed, version not. -/
theorem c8_counterexample :
    (commitWrites st1
        ((setModelVersionWrites registry2 st1 { model_version := "2" }).take 1)).model_version
      = st1.model_version ∧
    (commitWrites st1
        ((setModelVersionWrites registry2 st1 { model_version := "2" }).take 1)).model
      ≠ st1.model := by
  refine ⟨rfl, fun h => ?_⟩
  have h0 : Except.ok (2 : Int) = Except.ok (0 : Int) := congrFun h []
  simp at h0

/-- C8 (amended): a successful version-change performs the registry load
before committing anything, and the commit is the three-assignment
sequence (model, model_version, model_uri) whose full completion equals
the consistent post-state of the handler; but the commit is not atomic —
after the first assignment alone the observable state is exactly the old
state with only the predictor replaced. -/
theorem c8_amended_commit_structure (lm : String → Except String Predictor)
    (st : ServingState) (req : VersionRequest) (m : Predictor)
    (h : lm (mkUri st.model_name req.model_version) = Except.ok m) :
    setModelVersionWrites lm st req = swapWrites st req.model_version m ∧
    commitWrites st (setModelVersionWrites lm st req) = (setModelVersion lm st req).1 ∧
    commitWrites st ((setModelVersionWrites lm st req).take 1)
      = { st with model := m } := by
  simp only [setModelVersionWrites, setModelVersion, h]
  refine ⟨?_, ?_, ?_⟩ <;> trivial

/-- C8 witness: the amended commit-structure theorem applied to the
version-"2" change against the registry serving the class-2 predictor. -/
theorem c8_witness :
    setModelVersionWrites registry2 st1 { model_version := "2" }
      = swapWrites st1 "2" (constPredictor 2) ∧
    commitWrites st1 (setModelVersionWrites registry2 st1 { model_version := "2" })
      = (setModelVersion registry2 st1 { model_version := "2" }).1 ∧
    commitWrites st1 ((setModelVersionWrites registry2 st1 { model_version := "2" }).take 1)
      = { st1 with model := constPredictor 2 } :=
  c8_amended_commit_structure registry2 st1 { model_version := "2" } (constPredictor 2) rfl

/-- C9: the per-sample loop is total only when every predictor output is
in the set 0, 1, 2 — if the predictor answers an id outside that set on
the first sample, the `IRIS_LABELS` lookup fails (KeyError) and predict
raises instead of returning a response; conversely, when every output is
an in-range id the loop completes normally. -/
theorem c9_labels_total_iff_in_range :
    (∀ (model : Predictor) (s : IrisSample) (rest : List IrisSample) (i : Int),
       model (features s) = Except.ok i → i ≠ 0 → i ≠ 1 → i ≠ 2 →
       ∃ e, predict model { samples := s :: rest } = Except.error e) ∧
    (∀ (model : Predictor) (samples : List IrisSample),
       (∀ s ∈ samples, ∃ i, model (features s) = Except.ok i ∧ (i = 0 ∨ i = 1 ∨ i = 2)) →
       ∃ p, predictLoop model samples = Except.ok p) := by
  constructor
  · intro model s rest i hok h0 h1 h2
    have hl : IRIS_LABELS i = none := by simp [IRIS_LABELS, h0, h1, h2]
    exact ⟨"KeyError: " ++ toString i, by simp [predict, predictLoop, hok, hl]⟩
  · intro model samples h
    induction samples with
    | nil => exact ⟨([], []), rfl⟩
    | cons a rest ih =>
      obtain ⟨i, hok, hi⟩ := h a (List.mem_cons_self a rest)
      have hlab : ∃ lab, IRIS_LABELS i = some lab := by
        rcases hi with rfl | rfl | rfl <;> exact ⟨_, rfl⟩
      obtain ⟨lab, hlab⟩ := hlab
      obtain ⟨⟨ids, labs⟩, hrest⟩ := ih fun s hs => h s (List.mem_cons_of_mem a hs)
      exact ⟨(i :: ids, lab :: labs), by simp [predictLoop, hok, hlab, hrest]⟩

/-- C9 witness: a predictor answering 3 makes the one-sample predict
raise; a predictor answering 0 lets the loop complete. -/
theorem c9_witness :
    (∃ e, predict (constPredictor 3) { samples := [sample0] } = Except.error e) ∧
    (∃ p, predictLoop (constPredictor 0) [sample0] = Except.ok p) :=
  ⟨c9_labels_total_iff_in_range.1 (constPredictor 3) sample0 [] 3 rfl
     (by decide) (by decide) (by decide),
   c9_labels_total_iff_in_range.2 (constPredictor 0) [sample0]
     fun s _ => ⟨0, rfl, Or.inl rfl⟩⟩

/-- C10: no endpoint ever changes model_name — each single step preserves
it (setModelVersion rebinds only model_version, model_uri and the
predictor), so along every request sequence starting from a state whose
name is the startup constant, it stays "iris-classifier". -/
theorem c10_model_name_never_changes :
    (∀ (lm : String → Except String Predictor) (st : ServingState) (r : Request),
       (step lm st r).1.model_name = st.model_name) ∧
    (∀ (lm : String → Except String Predictor) (st : ServingState) (reqs : List Request),
       st.model_name = MODEL_NAME → (run lm st reqs).model_name = MODEL_NAME) := by
  have hstep : ∀ (lm : String → Except String Predictor) (st : ServingState) (r : Request),
      (step lm st r).1.model_name = st.model_name := by
    intro lm st r
    cases r with
    | health => rfl
    | version => rfl
    | predict req => rfl
    | setModelVersion req =>
      simp only [step, setModelVersion]
      cases h : lm (mkUri st.model_name req.model_version) with
      | error e => rfl
      | ok m => rfl
  refine ⟨hstep, ?_⟩
  intro lm st reqs
  induction reqs generalizing st with
  | nil => exact fun h => h
  | cons r rest ih => exact fun h => ih (step lm st r).1 ((hstep lm st r).trans h)

/-- C10 witness: the preservation theorem applied to a concrete two
request run from the concrete state. -/
theorem c10_witness :
    (run okRegistry st1
       [Request.version, Request.setModelVersion { model_version := "2" }]).model_name
      = MODEL_NAME :=
  c10_model_name_never_changes.2 okRegistry st1
    [Request.version, Request.setModelVersion { model_version := "2" }] rfl

end IrisServer
